import Mathlib

/-!
Verification of the FluxAI gateway's dual-tier response cache and cost
accounting, shallowly embedded from the Python source:

* `app/utils/vector.py`        — cosine similarity, batch scoring, best match
* `app/services/cache.py`      — exact + semantic cache orchestration
* `app/services/embeddings.py` — embedding adapter (empty-text short circuit)
* `app/services/cost_calculator.py`, `app/models/pricing.py` — cost accounting

Python floats are idealised as exact real (for the similarity engine) or
rational (for cost accounting) arithmetic.  External effects (Redis calls,
the Bedrock embedding provider) are modelled by explicit state passing plus
an environment of per-call outcomes; a raised-and-caught exception in the
source corresponds to an `err`/`none` outcome flag in the environment.
-/

namespace FluxAI

/-! ## SHA-256 over `Nat` words (models Python's `hashlib.sha256(...).hexdigest()`)

All words are natural numbers reduced modulo `2 ^ 32`.
-/

/-- Truncate to a 32-bit word. -/
def w32 (n : Nat) : Nat := n % 4294967296

/-- Rotate the word `x` right by `n` bit positions, staying in 32 bits. -/
def rotr32 (x n : Nat) : Nat := w32 ((x >>> n) ||| (x <<< (32 - n)))

/-- Bitwise complement of a 32-bit word. -/
def not32 (x : Nat) : Nat := x ^^^ 4294967295

/-- SHA-256 round constants. -/
def shaK : List Nat :=
  [1116352408, 1899447441, 3049323471, 3921009573, 961987163,
   1508970993, 2453635748, 2870763221, 3624381080, 310598401,
   607225278, 1426881987, 1925078388, 2162078206, 2614888103,
   3248222580, 3835390401, 4022224774, 264347078, 604807628,
   770255983, 1249150122, 1555081692, 1996064986, 2554220882,
   2821834349, 2952996808, 3210313671, 3336571891, 3584528711,
   113926993, 338241895, 666307205, 773529912, 1294757372,
   1396182291, 1695183700, 1986661051, 2177026350, 2456956037,
   2730485921, 2820302411, 3259730800, 3345764771, 3516065817,
   3600352804, 4094571909, 275423344, 430227734, 506948616,
   659060556, 883997877, 958139571, 1322822218, 1537002063,
   1747873779, 1955562222, 2024104815, 2227730452, 2361852424,
   2428436474, 2756734187, 3204031479, 3329325298]

/-- SHA-256 initial hash state. -/
def shaH0 : List Nat :=
  [1779033703, 3144134277, 1013904242, 2773480762,
   1359893119, 2600822924, 528734635, 1541459225]

/-- UTF-8 encoding of a single code point (models Python's `str.encode()`). -/
def utf8EncodeChar (c : Nat) : List Nat :=
  if c < 0x80 then [c]
  else if c < 0x800 then
    [0xC0 ||| (c >>> 6), 0x80 ||| (c &&& 0x3F)]
  else if c < 0x10000 then
    [0xE0 ||| (c >>> 12), 0x80 ||| ((c >>> 6) &&& 0x3F), 0x80 ||| (c &&& 0x3F)]
  else
    [0xF0 ||| (c >>> 18), 0x80 ||| ((c >>> 12) &&& 0x3F),
     0x80 ||| ((c >>> 6) &&& 0x3F), 0x80 ||| (c &&& 0x3F)]

/-- UTF-8 bytes of a string. -/
def utf8Bytes (s : String) : List Nat :=
  (s.toList.map (fun c => utf8EncodeChar c.toNat)).flatten

/-- Big-endian 8-byte encoding of the bit length. -/
def be64 (n : Nat) : List Nat :=
  (List.range 8).map (fun i => (n >>> (8 * (7 - i))) % 256)

/-- SHA-256 message padding to a multiple of 64 bytes. -/
def sha256pad (msg : List Nat) : List Nat :=
  let len := msg.length
  let k := (64 - ((len + 9) % 64)) % 64
  msg ++ [0x80] ++ List.replicate k 0 ++ be64 (8 * len)

/-- Combine bytes into big-endian 32-bit words. -/
def bytesToWords : List Nat → List Nat
  | b0 :: b1 :: b2 :: b3 :: rest =>
      ((b0 <<< 24) ||| (b1 <<< 16) ||| (b2 <<< 8) ||| b3) :: bytesToWords rest
  | _ => []

/-- Split a word list into 16-word blocks. -/
def chunk16 : List Nat → List (List Nat)
  | [] => []
  | x :: xs => (x :: xs).take 16 :: chunk16 ((x :: xs).drop 16)
  termination_by l => l.length
  decreasing_by simp; omega

/-- Extend a 16-word block to the 64-word message schedule. -/
def shaSchedule (block : List Nat) : List Nat :=
  (List.range 48).foldl
    (fun ws i =>
      let s0w := ws.getD (i + 1) 0
      let s1w := ws.getD (i + 14) 0
      let s0 := rotr32 s0w 7 ^^^ rotr32 s0w 18 ^^^ (s0w >>> 3)
      let s1 := rotr32 s1w 17 ^^^ rotr32 s1w 19 ^^^ (s1w >>> 10)
      ws ++ [w32 (s1 + ws.getD (i + 9) 0 + s0 + ws.getD i 0)])
    block

/-- One SHA-256 compression step over a 64-word schedule. -/
def shaCompress (h : List Nat) (ws : List Nat) : List Nat :=
  let final :=
    (List.zip ws shaK).foldl
      (fun st wk =>
        match st with
        | [a, b, c, d, e, f, g, hh] =>
          let bigS1 := rotr32 e 6 ^^^ rotr32 e 11 ^^^ rotr32 e 25
          let ch := (e &&& f) ^^^ (not32 e &&& g)
          let t1 := w32 (hh + bigS1 + ch + wk.2 + wk.1)
          let bigS0 := rotr32 a 2 ^^^ rotr32 a 13 ^^^ rotr32 a 22
          let mj := (a &&& b) ^^^ (a &&& c) ^^^ (b &&& c)
          let t2 := w32 (bigS0 + mj)
          [w32 (t1 + t2), a, b, c, w32 (d + t1), e, f, g]
        | other => other)
      h
  List.zipWith (fun x y => w32 (x + y)) h final

/-- SHA-256 digest of a byte list, as eight 32-bit words. -/
def sha256words (msg : List Nat) : List Nat :=
  (chunk16 (bytesToWords (sha256pad msg))).foldl
    (fun h block => shaCompress h (shaSchedule block)) shaH0

/-- Hexadecimal digit character. -/
def hexDigit (n : Nat) : Char :=
  Char.ofNat (if n < 10 then 48 + n else 87 + n)

/-- Eight-hex-character rendering of a 32-bit word. -/
def hex8 (w : Nat) : String :=
  String.mk ((List.range 8).map (fun i => hexDigit ((w >>> (4 * (7 - i))) % 16)))

/-- Hex digest of a string, as Python's `hashlib.sha256(s.encode()).hexdigest()`. -/
def sha256hex (s : String) : String :=
  String.join ((sha256words (utf8Bytes s)).map hex8)

/-! ## Cache key derivation (`CacheService._generate_*` in `app/services/cache.py`) -/

/-- Source: `_generate_exact_cache_key`; hashes `f"{model_id}:{prompt}"` and keeps
the first 16 hex characters. -/
def generate_exact_cache_key (prompt model_id : String) : String :=
  "cache:exact:" ++ (sha256hex (model_id ++ ":" ++ prompt)).take 16

/-- Source: `_generate_semantic_key`. -/
def generate_semantic_key (model_id : String) : String :=
  "cache:semantic:" ++ model_id ++ ":entries"

/-- Source: `_generate_embedding_key`. -/
def generate_embedding_key (cache_id : String) : String :=
  "cache:embedding:" ++ cache_id

/-- Source: `_generate_response_key`. -/
def generate_response_key (cache_id : String) : String :=
  "cache:response:" ++ cache_id

/-! ## Pricing table (`app/models/pricing.py`) -/

/-- Pricing row for a Bedrock model (dataclass `ModelPricing`); the
`last_updated` wall-clock field is not modelled.  Prices are rationals. -/
structure ModelPricing where
  model_id : String
  input_per_1k : ℚ
  output_per_1k : ℚ
  region : String := "us-east-1"
  effective_date : String := "2025-10-01"
deriving DecidableEq

/-- The `BEDROCK_PRICING` dictionary, as an association list. -/
def BEDROCK_PRICING : List (String × ModelPricing) :=
  [("anthropic.claude-3-5-sonnet-20241022-v2:0",
    { model_id := "anthropic.claude-3-5-sonnet-20241022-v2:0",
      input_per_1k := 0.003, output_per_1k := 0.015 }),
   ("anthropic.claude-3-5-haiku-20241022-v1:0",
    { model_id := "anthropic.claude-3-5-haiku-20241022-v1:0",
      input_per_1k := 0.001, output_per_1k := 0.005 }),
   ("anthropic.claude-3-opus-20240229-v1:0",
    { model_id := "anthropic.claude-3-opus-20240229-v1:0",
      input_per_1k := 0.015, output_per_1k := 0.075 }),
   ("meta.llama3-70b-instruct-v1:0",
    { model_id := "meta.llama3-70b-instruct-v1:0",
      input_per_1k := 0.00265, output_per_1k := 0.0035 }),
   ("meta.llama3-8b-instruct-v1:0",
    { model_id := "meta.llama3-8b-instruct-v1:0",
      input_per_1k := 0.0003, output_per_1k := 0.0006 }),
   ("amazon.titan-text-express-v1",
    { model_id := "amazon.titan-text-express-v1",
      input_per_1k := 0.0002, output_per_1k := 0.0006 }),
   ("amazon.titan-text-lite-v1",
    { model_id := "amazon.titan-text-lite-v1",
      input_per_1k := 0.00015, output_per_1k := 0.0002 }),
   ("mistral.mistral-7b-instruct-v0:2",
    { model_id := "mistral.mistral-7b-instruct-v0:2",
      input_per_1k := 0.00015, output_per_1k := 0.0002 }),
   ("mistral.mixtral-8x7b-instruct-v0:1",
    { model_id := "mistral.mixtral-8x7b-instruct-v0:1",
      input_per_1k := 0.00045, output_per_1k := 0.0007 }),
   ("amazon.titan-embed-text-v1",
    { model_id := "amazon.titan-embed-text-v1",
      input_per_1k := 0.0001, output_per_1k := 0.0 })]

/-- The `REGIONAL_MULTIPLIERS` dictionary. -/
def REGIONAL_MULTIPLIERS : List (String × ℚ) :=
  [("us-east-1", 1.0), ("us-west-2", 1.0), ("eu-west-1", 1.1),
   ("eu-central-1", 1.1), ("ap-northeast-1", 1.15), ("ap-southeast-1", 1.15)]

/-- Source: `get_model_pricing`; applies the regional multiplier (default 1.0
for an unknown region) to the base pricing row, `None` if the model is absent. -/
def get_model_pricing (model_id region : String) : Option ModelPricing :=
  match BEDROCK_PRICING.lookup model_id with
  | none => none
  | some base =>
    let multiplier := (REGIONAL_MULTIPLIERS.lookup region).getD 1.0
    some { model_id := model_id,
           input_per_1k := base.input_per_1k * multiplier,
           output_per_1k := base.output_per_1k * multiplier,
           region := region,
           effective_date := base.effective_date }

/-! ## Cost calculator (`app/services/cost_calculator.py`) -/

/-- Round a rational to the nearest integer, ties to even — the semantics of
Python's built-in `round`. -/
def rint_half_even (q : ℚ) : ℤ :=
  let f := ⌊q⌋
  let r := q - f
  if r < 1 / 2 then f
  else if 1 / 2 < r then f + 1
  else if f % 2 = 0 then f else f + 1

/-- Python's `round(q, 6)`: round to six decimal digits. -/
def round6 (q : ℚ) : ℚ := (rint_half_even (q * 1000000) : ℚ) / 1000000

/-- Dataclass `CostBreakdown`; the wall-clock `timestamp` field is not
modelled. -/
structure CostBreakdown where
  input_cost : ℚ
  output_cost : ℚ
  total_cost : ℚ
  model_id : String
  input_tokens : ℕ
  output_tokens : ℕ
  region : String
deriving DecidableEq

/-- The hard-coded fallback model of `CostCalculator.calculate_cost`. -/
def fallback_model_id : String := "anthropic.claude-3-5-sonnet-20241022-v2:0"

/-- Source: `CostCalculator.calculate_cost`.  The `Bool` component records
whether the no-pricing warning was logged (the fallback branch was taken).
The result is `none` only if even the fallback row were missing, where the
Python code would crash on `pricing.input_per_1k`. -/
def calculate_cost (model_id : String) (input_tokens output_tokens : ℕ)
    (region : String) : Option (CostBreakdown × Bool) :=
  let found := get_model_pricing model_id region
  let pricing? := match found with
    | some p => some p
    | none => get_model_pricing fallback_model_id region
  match pricing? with
  | none => none
  | some pricing =>
    let input_cost := ((input_tokens : ℚ) / 1000) * pricing.input_per_1k
    let output_cost := ((output_tokens : ℚ) / 1000) * pricing.output_per_1k
    let total_cost := input_cost + output_cost
    some ({ input_cost := round6 input_cost,
            output_cost := round6 output_cost,
            total_cost := round6 total_cost,
            model_id := model_id,
            input_tokens := input_tokens,
            output_tokens := output_tokens,
            region := region }, found.isNone)

/-! ## Embedding service (`app/services/embeddings.py`) -/

/-- Python whitespace characters, as stripped by `str.strip()`. -/
def is_python_space (c : Char) : Bool :=
  c == ' ' || c == '\t' || c == '\n' || c == '\r' || c == '\x0B' || c == '\x0C'

/-- Python's `str.strip()`. -/
def python_strip (s : String) : String :=
  String.mk (((s.toList.dropWhile is_python_space).reverse.dropWhile
    is_python_space).reverse)

/-- Source: `EmbeddingService.generate_embedding`.  `dimension` is the
configured `EMBEDDING_DIMENSION`; `provider` abstracts the Bedrock
`invoke_model` call (already wrapped in its retry policy): `some v` is the
parsed `embedding` field of a successful response, `none` a failure that is
re-raised after retries.  Result: the embedding (or `none` when the call
raised) paired with whether the provider was invoked at all. -/
def generate_embedding (dimension : ℕ) (provider : String → Option (List ℝ))
    (text : String) : Option (List ℝ) × Bool :=
  if python_strip text = "" then (some (List.replicate dimension 0), false)
  else
    match provider (python_strip text) with
    | none => (none, true)
    | some embedding =>
      match embedding with
      | [] => (some (List.replicate dimension 0), true)
      | x :: xs => (some (x :: xs), true)

/-! ## Similarity engine (`app/utils/vector.py`)

Vectors are lists of reals; float arithmetic is idealised as exact real
arithmetic.  Comparisons on reals are decided classically, so these
definitions are `noncomputable`; concrete instances are evaluated in proofs
by `norm_num`. -/

open Classical in
/-- Sum of squares of a vector's entries. -/
noncomputable def sumSq (v : List ℝ) : ℝ := (v.map (fun x => x * x)).sum

/-- The Euclidean norm `np.linalg.norm`. -/
noncomputable def vnorm (v : List ℝ) : ℝ := Real.sqrt (sumSq v)

/-- Dot product `np.dot` of two equal-length vectors. -/
noncomputable def dot (a b : List ℝ) : ℝ :=
  (List.zipWith (fun x y => x * y) a b).sum

/-- Clamp into `[-1, 1]`, as `np.clip(x, -1.0, 1.0)`. -/
noncomputable def clip (x : ℝ) : ℝ := min (max x (-1)) 1

open Classical in
/-- Source: `cosine_similarity`.  A `ValueError` for mismatched dimensions is
an `Except.error`; the falsy-input and zero-norm conventions return `ok 0`. -/
noncomputable def cosine_similarity (vec1 vec2 : List ℝ) : Except Unit ℝ :=
  if vec1 = [] ∨ vec2 = [] then .ok 0
  else if vec1.length ≠ vec2.length then .error ()
  else if vnorm vec1 = 0 ∨ vnorm vec2 = 0 then .ok 0
  else .ok (clip (dot vec1 vec2 / (vnorm vec1 * vnorm vec2)))

open Classical in
/-- Source: `batch_cosine_similarity`.  Empty query or empty candidate list
yields `[]`; a zero-norm query yields all-zero scores; a candidate that is
empty, of mismatched length, or of zero norm scores `0.0`. -/
noncomputable def batch_cosine_similarity (query_vec : List ℝ)
    (vectors : List (List ℝ)) : List ℝ :=
  if query_vec = [] ∨ vectors = [] then []
  else if vnorm query_vec = 0 then List.replicate vectors.length 0
  else
    vectors.map (fun v =>
      if v = [] ∨ v.length ≠ query_vec.length then 0
      else if vnorm v = 0 then 0
      else clip (dot query_vec v / (vnorm query_vec * vnorm v)))

open Classical in
/-- Helper for `np.argmax`: scan with current best index, best value and the
index of the next element; a later element replaces the best only when
strictly greater, so the first maximum wins. -/
noncomputable def np_argmaxAux : List ℝ → ℕ → ℝ → ℕ → ℕ
  | [], besti, _, _ => besti
  | x :: xs, besti, bestv, i =>
      if bestv < x then np_argmaxAux xs i x (i + 1)
      else np_argmaxAux xs besti bestv (i + 1)

/-- The index of the first maximal element, as `np.argmax` (the source only
applies it to non-empty lists; `np.argmax []` raises, modelled as 0). -/
noncomputable def np_argmax : List ℝ → ℕ
  | [] => 0
  | x :: xs => np_argmaxAux xs 0 x 1

open Classical in
/-- Source: `find_most_similar` — the spec's `find_best_match`.  Computes the
batch similarities, takes the argmax, and accepts only at or above the
threshold. -/
noncomputable def find_most_similar (query_vec : List ℝ)
    (vectors : List (List ℝ)) (threshold : ℝ) : Option (ℕ × ℝ) :=
  let similarities := batch_cosine_similarity query_vec vectors
  if similarities = [] then none
  else
    let max_idx := np_argmax similarities
    let max_similarity := similarities.getD max_idx 0
    if threshold ≤ max_similarity then some (max_idx, max_similarity) else none

/-! ## Cache service (`app/services/cache.py`)

The service is embedded as explicit state passing.  Redis holds JSON strings;
since `json.loads` inverts `json.dumps` the stored payloads are modelled as
the structured values themselves, one map per key namespace (the four
namespaces `cache:exact:`, `cache:embedding:`, `cache:response:` and
`cache:semantic:*:entries` are disjoint by construction).  TTLs only govern
expiry, which has no clock in this model.  Every Redis call and the embedding
call can raise; a call's outcome is drawn from an explicit environment, and a
raised exception follows the source's `try/except` structure. -/

/-- Token usage of a stored completion. -/
structure Usage where
  input_tokens : ℕ
  output_tokens : ℕ
deriving DecidableEq

/-- The response payload stored by `CacheService.set` (`json.dumps(response)`).
`timestamp` models `response.get("timestamp", "")` used for the cache id. -/
structure CachedResponse where
  content : String
  usage : Usage
  timestamp : String
deriving DecidableEq

/-- A cache lookup result: the payload plus the `cache_type` tag that `get`
writes into the dict, and the optional `similarity_score` added only on the
semantic path. -/
structure CacheResult where
  response : CachedResponse
  cache_type : String
  similarity_score : Option ℝ

/-- The Redis keyspace, split by the service's four key namespaces. -/
structure Redis where
  exact : String → Option CachedResponse
  emb : String → Option (List ℝ)
  resp : String → Option CachedResponse
  sem : String → List String

/-- Redis after `flushdb`. -/
def emptyRedis : Redis :=
  { exact := fun _ => none, emb := fun _ => none,
    resp := fun _ => none, sem := fun _ => [] }

/-- Point update of a keyed map. -/
def upd {α : Type} (m : String → Option α) (k : String) (v : α) :
    String → Option α :=
  fun k2 => if k2 = k then some v else m k2

/-- The `self.stats` counters. -/
structure Stats where
  exact_hits : ℕ
  semantic_hits : ℕ
  misses : ℕ
  total_requests : ℕ
deriving DecidableEq

/-- The cache service state: configuration read in `__init__`/`get`, the
statistics counters, and the Redis store.  `redis_connected` models
`self.redis_client is not None`. -/
structure CacheService where
  enabled : Bool
  redis_connected : Bool
  semantic_enabled : Bool
  similarity_threshold : ℝ
  exact_match_first : Bool
  stats : Stats
  redis : Redis

/-- Source: `CacheService.is_enabled`. -/
def is_enabled (svc : CacheService) : Bool :=
  svc.enabled && svc.redis_connected

/-- Outcomes of the external calls made during one cache operation.  A `false`
flag (or `none` for `embed`) means the call raises; Redis reads that succeed
return what the store holds. -/
structure Env where
  getOk : String → Bool
  lrangeOk : String → Bool
  setOk : String → Bool
  lpushOk : Bool
  flushOk : Bool
  embed : String → Option (List ℝ)

/-- Every external call succeeds (the embedding outcome is unconstrained). -/
def Env.allOk (env : Env) : Prop :=
  (∀ k, env.getOk k = true) ∧ (∀ k, env.lrangeOk k = true) ∧
  (∀ k, env.setOk k = true) ∧ env.lpushOk = true

/-- Increment `stats["exact_hits"]`. -/
def bumpExact (svc : CacheService) : CacheService :=
  { svc with stats := { svc.stats with exact_hits := svc.stats.exact_hits + 1 } }

/-- Increment `stats["semantic_hits"]`. -/
def bumpSemantic (svc : CacheService) : CacheService :=
  { svc with stats :=
      { svc.stats with semantic_hits := svc.stats.semantic_hits + 1 } }

/-- Increment `stats["misses"]`. -/
def bumpMiss (svc : CacheService) : CacheService :=
  { svc with stats := { svc.stats with misses := svc.stats.misses + 1 } }

/-- Increment `stats["total_requests"]`. -/
def bumpTotal (svc : CacheService) : CacheService :=
  { svc with stats :=
      { svc.stats with total_requests := svc.stats.total_requests + 1 } }

/-- Source: `CacheService._try_exact_match`.  On a successful read of a
present entry the hit counter is bumped and the payload is tagged `"exact"`;
a raised read error is caught and yields no result. -/
def try_exact_match (svc : CacheService) (env : Env)
    (prompt model_id : String) : Option CacheResult × CacheService :=
  let cache_key := generate_exact_cache_key prompt model_id
  if env.getOk cache_key then
    match svc.redis.exact cache_key with
    | some r =>
        (some { response := r, cache_type := "exact", similarity_score := none },
         bumpExact svc)
    | none => (none, svc)
  else (none, svc)

/-- The embedding-fetch loop of `_try_semantic_match`: collect, in order, the
stored embedding and id of every candidate whose embedding key is present; a
raised read error anywhere aborts the whole enclosing `try`. -/
def fetch_candidate_embeddings (r : Redis) (env : Env) :
    List String → Except Unit (List (List ℝ) × List String)
  | [] => .ok ([], [])
  | cache_id :: rest =>
    if env.getOk (generate_embedding_key cache_id) then
      match r.emb (generate_embedding_key cache_id),
            fetch_candidate_embeddings r env rest with
      | some e, .ok (es, ids) => .ok (e :: es, cache_id :: ids)
      | some _, .error u => .error u
      | none, res => res
    else .error ()

/-- Source: `CacheService._try_semantic_match`.  Any exception inside the
`try` (embedding failure, Redis error, out-of-range index) is caught and
yields no result; a hit bumps the semantic counter and tags the payload
`"semantic"` with its similarity score. -/
noncomputable def try_semantic_match (svc : CacheService) (env : Env)
    (prompt model_id : String) : Option CacheResult × CacheService :=
  if !svc.semantic_enabled then (none, svc)
  else
    match env.embed prompt with
    | none => (none, svc)
    | some query_embedding =>
      let semantic_key := generate_semantic_key model_id
      if !env.lrangeOk semantic_key then (none, svc)
      else
        let cache_ids := svc.redis.sem semantic_key
        if cache_ids.isEmpty then (none, svc)
        else
          match fetch_candidate_embeddings svc.redis env cache_ids with
          | .error _ => (none, svc)
          | .ok (embeddings, valid_cache_ids) =>
            if embeddings.isEmpty then (none, svc)
            else
              match find_most_similar query_embedding embeddings
                  svc.similarity_threshold with
              | none => (none, svc)
              | some (idx, similarity) =>
                match valid_cache_ids.get? idx with
                | none => (none, svc)
                | some cache_id =>
                  let response_key := generate_response_key cache_id
                  if !env.getOk response_key then (none, svc)
                  else
                    match svc.redis.resp response_key with
                    | none => (none, svc)
                    | some r =>
                        (some { response := r, cache_type := "semantic",
                                similarity_score := some similarity },
                         bumpSemantic svc)

/-- The tail of `CacheService.get` after the exact-match attempt: try the
semantic match, and count a miss when it produces nothing. -/
noncomputable def cache_get_semantic_phase (svc : CacheService) (env : Env)
    (prompt model_id : String) : Option CacheResult × CacheService :=
  match try_semantic_match svc env prompt model_id with
  | (some r, svc1) => (some r, svc1)
  | (none, svc1) => (none, bumpMiss svc1)

/-- Source: `CacheService.get`.  Disabled caches return nothing untouched;
otherwise `total_requests` is bumped, the exact match is tried first when
`CACHE_EXACT_MATCH_FIRST` is set, then the semantic match, then a miss. -/
noncomputable def cache_get (svc : CacheService) (env : Env)
    (prompt model_id : String) : Option CacheResult × CacheService :=
  if !is_enabled svc then (none, svc)
  else
    let svc0 := bumpTotal svc
    if svc0.exact_match_first then
      match try_exact_match svc0 env prompt model_id with
      | (some r, svc1) => (some r, svc1)
      | (none, svc1) => cache_get_semantic_phase svc1 env prompt model_id
    else cache_get_semantic_phase svc0 env prompt model_id

/-- Source: `CacheService.set`.  Writes the exact entry, then — when semantic
caching is enabled — the embedding, the response copy and the candidate-list
push, in source order; a raised error anywhere is caught and aborts the rest,
leaving the writes already made (the trailing `expire` call only adjusts a
TTL, which has no effect in this clock-free model). -/
def cache_set (svc : CacheService) (env : Env) (prompt model_id : String)
    (response : CachedResponse) : CacheService :=
  if !is_enabled svc then svc
  else
    let exact_key := generate_exact_cache_key prompt model_id
    if !env.setOk exact_key then svc
    else
      let svc1 := { svc with redis :=
        { svc.redis with exact := upd svc.redis.exact exact_key response } }
      if !svc1.semantic_enabled then svc1
      else
        let cache_id :=
          (sha256hex (model_id ++ ":" ++ prompt ++ ":" ++
            response.timestamp)).take 16
        match env.embed prompt with
        | none => svc1
        | some embedding =>
          let embedding_key := generate_embedding_key cache_id
          if !env.setOk embedding_key then svc1
          else
            let svc2 := { svc1 with redis :=
              { svc1.redis with
                emb := upd svc1.redis.emb embedding_key embedding } }
            let response_key := generate_response_key cache_id
            if !env.setOk response_key then svc2
            else
              let svc3 := { svc2 with redis :=
                { svc2.redis with
                  resp := upd svc2.redis.resp response_key response } }
              let semantic_key := generate_semantic_key model_id
              if !env.lpushOk then svc3
              else
                { svc3 with redis := { svc3.redis with sem := (fun k =>
                    if k = semantic_key then cache_id :: svc3.redis.sem k
                    else svc3.redis.sem k) } }

/-- Source: `CacheService.clear`.  `flushdb` empties the store and the
counters are reset; a raised flush error is caught and logged, leaving the
state as it was. -/
def cache_clear (svc : CacheService) (env : Env) : CacheService :=
  if !is_enabled svc then svc
  else if env.flushOk then
    { svc with redis := emptyRedis,
               stats := { exact_hits := 0, semantic_hits := 0,
                          misses := 0, total_requests := 0 } }
  else svc

/-! ## Helper lemmas -/

/-- A list all of whose elements satisfy the predicate drops to nothing. -/
lemma dropWhile_eq_nil_of_all {p : Char → Bool} {l : List Char}
    (h : l.all p = true) : l.dropWhile p = [] := by
  induction l with
  | nil => rfl
  | cons x xs ih =>
    simp only [List.all_cons, Bool.and_eq_true] at h
    simp [List.dropWhile_cons, h.1, ih h.2]

/-- Stripping a whitespace-only string yields the empty string. -/
lemma python_strip_of_all_space {s : String}
    (h : s.toList.all is_python_space = true) : python_strip s = "" := by
  unfold python_strip
  rw [dropWhile_eq_nil_of_all h]
  rfl

/-- A vector of zeroes has zero norm. -/
lemma vnorm_eq_zero_of_all_zero {v : List ℝ} (h : ∀ x ∈ v, x = 0) :
    vnorm v = 0 := by
  have hs : sumSq v = 0 := by
    unfold sumSq
    refine List.sum_eq_zero ?_
    intro y hy
    obtain ⟨x, hx, rfl⟩ := List.mem_map.mp hy
    rw [h x hx, mul_zero]
  unfold vnorm
  rw [hs, Real.sqrt_zero]

/-- The exact-match attempt either leaves the state alone and returns
nothing, or returns a hit and bumps only `exact_hits`. -/
lemma try_exact_cases (svc : CacheService) (env : Env)
    (prompt model_id : String) :
    try_exact_match svc env prompt model_id = (none, svc) ∨
    ∃ r, try_exact_match svc env prompt model_id = (some r, bumpExact svc) := by
  unfold try_exact_match
  dsimp only
  repeat' split
  all_goals first | exact Or.inl rfl | exact Or.inr ⟨_, rfl⟩

/-- The semantic-match attempt either leaves the state alone and returns
nothing, or returns a hit and bumps only `semantic_hits`. -/
lemma try_semantic_cases (svc : CacheService) (env : Env)
    (prompt model_id : String) :
    try_semantic_match svc env prompt model_id = (none, svc) ∨
    ∃ r, try_semantic_match svc env prompt model_id =
      (some r, bumpSemantic svc) := by
  unfold try_semantic_match
  dsimp only
  repeat' split
  all_goals first | exact Or.inl rfl | exact Or.inr ⟨_, rfl⟩

/-- The post-exact phase of `get` either counts a miss or a semantic hit. -/
lemma cache_get_semantic_phase_cases (svc : CacheService) (env : Env)
    (prompt model_id : String) :
    cache_get_semantic_phase svc env prompt model_id = (none, bumpMiss svc) ∨
    ∃ r, cache_get_semantic_phase svc env prompt model_id =
      (some r, bumpSemantic svc) := by
  unfold cache_get_semantic_phase
  rcases try_semantic_cases svc env prompt model_id with h | ⟨r, h⟩ <;> rw [h]
  · exact Or.inl rfl
  · exact Or.inr ⟨r, rfl⟩

/-- On an enabled cache, a lookup leaves the service in one of exactly three
states: an exact hit, a semantic hit, or a miss, each on top of the
`total_requests` bump. -/
lemma cache_get_state_cases (svc : CacheService) (env : Env)
    (prompt model_id : String) (hen : is_enabled svc = true) :
    (cache_get svc env prompt model_id).2 = bumpExact (bumpTotal svc) ∨
    (cache_get svc env prompt model_id).2 = bumpSemantic (bumpTotal svc) ∨
    (cache_get svc env prompt model_id).2 = bumpMiss (bumpTotal svc) := by
  unfold cache_get
  simp only [hen, Bool.not_true, Bool.false_eq_true, if_false]
  by_cases hf : (bumpTotal svc).exact_match_first
  · simp only [hf, if_true]
    rcases try_exact_cases (bumpTotal svc) env prompt model_id with h | ⟨r, h⟩
        <;> rw [h] <;> dsimp only
    · rcases cache_get_semantic_phase_cases (bumpTotal svc) env prompt model_id
          with h2 | ⟨r2, h2⟩ <;> rw [h2]
      · exact Or.inr (Or.inr rfl)
      · exact Or.inr (Or.inl rfl)
    · exact Or.inl rfl
  · simp only [hf, if_false]
    rcases cache_get_semantic_phase_cases (bumpTotal svc) env prompt model_id
        with h2 | ⟨r2, h2⟩ <;> rw [h2]
    · exact Or.inr (Or.inr rfl)
    · exact Or.inr (Or.inl rfl)

/-- Scanning spec of `np_argmaxAux`: the result is either the incoming best
index with every scanned element at most the incoming best value, or the
offset position of a strictly better element that dominates the scanned
list. -/
lemma np_argmaxAux_spec (xs : List ℝ) : ∀ (besti i : ℕ) (bestv : ℝ),
    (np_argmaxAux xs besti bestv i = besti ∧ ∀ y ∈ xs, y ≤ bestv) ∨
    (∃ j, ∃ hj : j < xs.length, np_argmaxAux xs besti bestv i = i + j ∧
      bestv < xs.get ⟨j, hj⟩ ∧ ∀ y ∈ xs, y ≤ xs.get ⟨j, hj⟩) := by
  induction xs with
  | nil =>
    intro besti i bestv
    exact Or.inl ⟨rfl, by simp⟩
  | cons x xs ih =>
    intro besti i bestv
    unfold np_argmaxAux
    by_cases hlt : bestv < x
    · rw [if_pos hlt]
      rcases ih i (i + 1) x with ⟨heq, hall⟩ | ⟨j, hj, heq, hgt, hall⟩
      · refine Or.inr ⟨0, by simp, by simpa using heq, by simpa using hlt, ?_⟩
        intro y hy
        rcases List.mem_cons.mp hy with rfl | hy
        · simp
        · simpa using hall y hy
      · have hj2 : j + 1 < (x :: xs).length := by simpa using Nat.succ_lt_succ hj
        have hget : (x :: xs).get ⟨j + 1, hj2⟩ = xs.get ⟨j, hj⟩ := by simp
        refine Or.inr ⟨j + 1, hj2, by rw [heq]; omega, ?_, ?_⟩
        · rw [hget]
          exact lt_trans hlt hgt
        · intro y hy
          rw [hget]
          rcases List.mem_cons.mp hy with rfl | hy
          · exact le_of_lt hgt
          · exact hall y hy
    · rw [if_neg hlt]
      rcases ih besti (i + 1) bestv with ⟨heq, hall⟩ | ⟨j, hj, heq, hgt, hall⟩
      · refine Or.inl ⟨heq, ?_⟩
        intro y hy
        rcases List.mem_cons.mp hy with rfl | hy
        · exact le_of_not_lt hlt
        · exact hall y hy
      · have hj2 : j + 1 < (x :: xs).length := by simpa using Nat.succ_lt_succ hj
        have hget : (x :: xs).get ⟨j + 1, hj2⟩ = xs.get ⟨j, hj⟩ := by simp
        refine Or.inr ⟨j + 1, hj2, by rw [heq]; omega, ?_, ?_⟩
        · rw [hget]
          exact hgt
        · intro y hy
          rw [hget]
          rcases List.mem_cons.mp hy with rfl | hy
          · exact le_trans (le_of_not_lt hlt) (le_of_lt hgt)
          · exact hall y hy

/-- On a non-empty list, `np_argmax` is in range and points at a maximal
element (the first one, by the strict-improvement scan). -/
lemma np_argmax_spec (x : ℝ) (xs : List ℝ) :
    np_argmax (x :: xs) < (x :: xs).length ∧
    (∀ y ∈ x :: xs, y ≤ (x :: xs).getD (np_argmax (x :: xs)) 0) ∧
    (x :: xs).getD (np_argmax (x :: xs)) 0 ∈ x :: xs := by
  have hdef : np_argmax (x :: xs) = np_argmaxAux xs 0 x 1 := rfl
  rw [hdef]
  rcases np_argmaxAux_spec xs 0 1 x with ⟨heq, hall⟩ | ⟨j, hj, heq, hgt, hall⟩
  · rw [heq]
    refine ⟨by simp, ?_, by simp⟩
    intro y hy
    rcases List.mem_cons.mp hy with rfl | hy
    · simp
    · simpa using hall y hy
  · rw [heq]
    have hlt : 1 + j < (x :: xs).length := by simp; omega
    have hget : (x :: xs).getD (1 + j) 0 = xs.get ⟨j, hj⟩ := by
      rw [List.getD_eq_get _ _ hlt]
      have h1 : 1 + j = j + 1 := by omega
      simp [h1]
    refine ⟨hlt, ?_, ?_⟩
    · intro y hy
      rw [hget]
      rcases List.mem_cons.mp hy with rfl | hy
      · exact le_of_lt hgt
      · exact hall y hy
    · rw [hget]
      exact List.mem_cons_of_mem x (List.get_mem xs j hj)

/-- Candidates always outnumber nothing: an empty candidate list gives an
empty similarity list. -/
lemma batch_nil_of_vs_nil (q : List ℝ) :
    batch_cosine_similarity q [] = [] := by
  unfold batch_cosine_similarity
  rw [if_pos (Or.inr rfl)]

/-- With an empty similarity list, `find_most_similar` returns nothing. -/
lemma find_none_of_batch_nil (q : List ℝ) (vs : List (List ℝ)) (t : ℝ)
    (h : batch_cosine_similarity q vs = []) :
    find_most_similar q vs t = none := by
  unfold find_most_similar
  dsimp only
  rw [h, if_pos rfl]

/-- With a non-empty similarity list, `find_most_similar` is the thresholded
argmax. -/
lemma find_eq_of_batch_cons (q : List ℝ) (vs : List (List ℝ)) (t : ℝ)
    (x : ℝ) (xs : List ℝ)
    (h : batch_cosine_similarity q vs = x :: xs) :
    find_most_similar q vs t =
      if t ≤ (x :: xs).getD (np_argmax (x :: xs)) 0 then
        some (np_argmax (x :: xs), (x :: xs).getD (np_argmax (x :: xs)) 0)
      else none := by
  unfold find_most_similar
  dsimp only
  rw [h, if_neg (by simp)]

/-- The five-dimensional unit query vector used in concrete similarity
scenarios. -/
noncomputable def qW : List ℝ := [1, 0, 0, 0, 0]

/-- A unit candidate whose cosine against `qW` is exactly `0.95`. -/
noncomputable def cAccept : List ℝ := [19 / 20, 1 / 4, 3 / 20, 1 / 10, 1 / 20]

/-- A unit candidate whose cosine against `qW` is exactly `0.949999`. -/
noncomputable def cReject : List ℝ :=
  [949999 / 1000000, 312251 / 1000000, 1098 / 1000000, 85 / 1000000,
   13 / 1000000]

/-- The query vector has unit norm. -/
lemma vnorm_qW : vnorm qW = 1 := by
  have h : sumSq qW = 1 := by norm_num [sumSq, qW]
  unfold vnorm
  rw [h, Real.sqrt_one]

/-- The accepting candidate has unit norm. -/
lemma vnorm_cAccept : vnorm cAccept = 1 := by
  have h : sumSq cAccept = 1 := by norm_num [sumSq, cAccept]
  unfold vnorm
  rw [h, Real.sqrt_one]

/-- The rejecting candidate has unit norm. -/
lemma vnorm_cReject : vnorm cReject = 1 := by
  have h : sumSq cReject = 1 := by norm_num [sumSq, cReject]
  unfold vnorm
  rw [h, Real.sqrt_one]

/-- Batch similarity of the accepting scenario: one score of exactly `0.95`. -/
lemma batch_qW_accept : batch_cosine_similarity qW [cAccept] = [19 / 20] := by
  unfold batch_cosine_similarity
  rw [if_neg (by simp [qW])]
  rw [if_neg (by rw [vnorm_qW]; exact one_ne_zero)]
  simp only [List.map_cons, List.map_nil]
  rw [if_neg (by simp [cAccept, qW])]
  rw [if_neg (by rw [vnorm_cAccept]; exact one_ne_zero)]
  rw [vnorm_qW, vnorm_cAccept]
  rw [show dot qW cAccept = 19 / 20 by norm_num [dot, qW, cAccept]]
  unfold clip
  norm_num

/-- Batch similarity of the rejecting scenario: one score of exactly
`0.949999`. -/
lemma batch_qW_reject :
    batch_cosine_similarity qW [cReject] = [949999 / 1000000] := by
  unfold batch_cosine_similarity
  rw [if_neg (by simp [qW])]
  rw [if_neg (by rw [vnorm_qW]; exact one_ne_zero)]
  simp only [List.map_cons, List.map_nil]
  rw [if_neg (by simp [cReject, qW])]
  rw [if_neg (by rw [vnorm_cReject]; exact one_ne_zero)]
  rw [vnorm_qW, vnorm_cReject]
  rw [show dot qW cReject = 949999 / 1000000 by norm_num [dot, qW, cReject]]
  unfold clip
  norm_num

/-- The maximum of a one-element real list is its element. -/
lemma maximum_single (a : ℝ) : [a].maximum = (a : WithBot ℝ) :=
  List.maximum_eq_coe_iff.mpr ⟨by simp, by simp⟩

/-- A candidate that is empty or dimension-mismatched is scored `0.0` by the
batch similarity (it is not excluded from the score list). -/
lemma batch_getD_of_mismatch (q : List ℝ) (vs : List (List ℝ)) (i : ℕ)
    (hbad : vs.getD i [] = [] ∨ (vs.getD i []).length ≠ q.length) :
    (batch_cosine_similarity q vs).getD i 0 = 0 := by
  unfold batch_cosine_similarity
  by_cases h1 : q = [] ∨ vs = []
  · rw [if_pos h1]
    simp
  · rw [if_neg h1]
    by_cases h2 : vnorm q = 0
    · rw [if_pos h2]
      rcases Nat.lt_or_ge i vs.length with hi | hi
      · rw [List.getD_eq_get _ _ (by simpa using hi)]
        simp
      · rw [List.getD_eq_default _ _ (by simpa using hi)]
    · rw [if_neg h2]
      rcases Nat.lt_or_ge i vs.length with hi | hi
      · have hig : i < (vs.map (fun v =>
            if v = [] ∨ v.length ≠ q.length then 0
            else if vnorm v = 0 then 0
            else clip (dot q v / (vnorm q * vnorm v)))).length := by
          simpa using hi
        rw [List.getD_eq_get _ _ hig, List.get_map]
        have hD : vs.getD i [] = vs.get ⟨i, hi⟩ := List.getD_eq_get _ _ hi
        rw [hD] at hbad
        rw [if_pos hbad]
      · rw [List.getD_eq_default _ _ (by simpa using hi)]

/-- A one-dimensional unit vector. -/
lemma vnorm_single_one : vnorm [(1 : ℝ)] = 1 := by
  have h : sumSq [(1 : ℝ)] = 1 := by norm_num [sumSq]
  unfold vnorm
  rw [h, Real.sqrt_one]

/-- Against the query `[1]`, the single mismatched candidate `[1, 2]` scores
`0.0`. -/
lemma batch_mismatch_only :
    batch_cosine_similarity [(1 : ℝ)] [[1, 2]] = [0] := by
  unfold batch_cosine_similarity
  rw [if_neg (by simp)]
  rw [if_neg (by rw [vnorm_single_one]; exact one_ne_zero)]
  simp only [List.map_cons, List.map_nil]
  rw [if_pos (Or.inr (by simp))]

/-- A concrete enabled service with non-zero counters. -/
def svcClearW : CacheService :=
  { enabled := true, redis_connected := true, semantic_enabled := true,
    similarity_threshold := 0.95, exact_match_first := true,
    stats := { exact_hits := 1, semantic_hits := 2, misses := 3,
               total_requests := 6 },
    redis := emptyRedis }

/-- An environment where every external call succeeds. -/
def envAllOk : Env :=
  { getOk := fun _ => true, lrangeOk := fun _ => true, setOk := fun _ => true,
    lpushOk := true, flushOk := true, embed := fun _ => none }

/-- An environment where only the store flush fails. -/
def envFlushFail : Env :=
  { getOk := fun _ => true, lrangeOk := fun _ => true, setOk := fun _ => true,
    lpushOk := true, flushOk := false, embed := fun _ => none }

/-- `cache_set` never changes the configuration flags or the statistics
counters — it only writes to the store. -/
lemma cache_set_preserves (svc : CacheService) (env : Env)
    (prompt model_id : String) (response : CachedResponse) :
    (cache_set svc env prompt model_id response).enabled = svc.enabled ∧
    (cache_set svc env prompt model_id response).redis_connected
      = svc.redis_connected ∧
    (cache_set svc env prompt model_id response).exact_match_first
      = svc.exact_match_first ∧
    (cache_set svc env prompt model_id response).stats = svc.stats := by
  unfold cache_set
  dsimp only
  repeat' split
  all_goals exact ⟨rfl, rfl, rfl, rfl⟩

/-- On an enabled cache with no store-write errors, `cache_set` stores the
response under the exact-match key (whatever the semantic tier then does). -/
lemma cache_set_writes_exact (svc : CacheService) (env : Env)
    (prompt model_id : String) (response : CachedResponse)
    (hen : is_enabled svc = true)
    (hset : ∀ k, env.setOk k = true) :
    (cache_set svc env prompt model_id response).redis.exact
      (generate_exact_cache_key prompt model_id) = some response := by
  unfold cache_set
  dsimp only
  repeat' split
  all_goals first
    | (dsimp only [upd]; exact if_pos rfl)
    | (exfalso; simp only [hen, hset, Bool.not_true, Bool.false_eq_true] at *)

/-! ## Claim theorems -/

/-- Claim C2: every completed lookup on an enabled cache increments
`total_requests` by one and exactly one of `exact_hits`, `semantic_hits`,
`misses` by one; consequently the invariant
`exact_hits + semantic_hits + misses = total_requests` is preserved. -/
theorem c2_lookup_increments (svc : CacheService) (env : Env)
    (prompt model_id : String) (hen : is_enabled svc = true) :
    ((cache_get svc env prompt model_id).2.stats.total_requests
        = svc.stats.total_requests + 1) ∧
    (((cache_get svc env prompt model_id).2.stats.exact_hits
          = svc.stats.exact_hits + 1 ∧
      (cache_get svc env prompt model_id).2.stats.semantic_hits
          = svc.stats.semantic_hits ∧
      (cache_get svc env prompt model_id).2.stats.misses
          = svc.stats.misses) ∨
     ((cache_get svc env prompt model_id).2.stats.exact_hits
          = svc.stats.exact_hits ∧
      (cache_get svc env prompt model_id).2.stats.semantic_hits
          = svc.stats.semantic_hits + 1 ∧
      (cache_get svc env prompt model_id).2.stats.misses
          = svc.stats.misses) ∨
     ((cache_get svc env prompt model_id).2.stats.exact_hits
          = svc.stats.exact_hits ∧
      (cache_get svc env prompt model_id).2.stats.semantic_hits
          = svc.stats.semantic_hits ∧
      (cache_get svc env prompt model_id).2.stats.misses
          = svc.stats.misses + 1)) ∧
    (svc.stats.exact_hits + svc.stats.semantic_hits + svc.stats.misses
        = svc.stats.total_requests →
     (cache_get svc env prompt model_id).2.stats.exact_hits
        + (cache_get svc env prompt model_id).2.stats.semantic_hits
        + (cache_get svc env prompt model_id).2.stats.misses
        = (cache_get svc env prompt model_id).2.stats.total_requests) := by
  rcases cache_get_state_cases svc env prompt model_id hen with h | h | h <;>
    rw [h] <;>
    simp [bumpExact, bumpSemantic, bumpMiss, bumpTotal] <;>
    omega

/-- Claim C2, witness: a concrete enabled service with counters `(1,2,3,6)`
satisfies the increment discipline on a concrete lookup. -/
theorem c2_witness :
    ((cache_get svcClearW envAllOk "p" "m").2.stats.total_requests
        = svcClearW.stats.total_requests + 1) ∧
    (((cache_get svcClearW envAllOk "p" "m").2.stats.exact_hits
          = svcClearW.stats.exact_hits + 1 ∧
      (cache_get svcClearW envAllOk "p" "m").2.stats.semantic_hits
          = svcClearW.stats.semantic_hits ∧
      (cache_get svcClearW envAllOk "p" "m").2.stats.misses
          = svcClearW.stats.misses) ∨
     ((cache_get svcClearW envAllOk "p" "m").2.stats.exact_hits
          = svcClearW.stats.exact_hits ∧
      (cache_get svcClearW envAllOk "p" "m").2.stats.semantic_hits
          = svcClearW.stats.semantic_hits + 1 ∧
      (cache_get svcClearW envAllOk "p" "m").2.stats.misses
          = svcClearW.stats.misses) ∨
     ((cache_get svcClearW envAllOk "p" "m").2.stats.exact_hits
          = svcClearW.stats.exact_hits ∧
      (cache_get svcClearW envAllOk "p" "m").2.stats.semantic_hits
          = svcClearW.stats.semantic_hits ∧
      (cache_get svcClearW envAllOk "p" "m").2.stats.misses
          = svcClearW.stats.misses + 1)) ∧
    (svcClearW.stats.exact_hits + svcClearW.stats.semantic_hits
        + svcClearW.stats.misses = svcClearW.stats.total_requests →
     (cache_get svcClearW envAllOk "p" "m").2.stats.exact_hits
        + (cache_get svcClearW envAllOk "p" "m").2.stats.semantic_hits
        + (cache_get svcClearW envAllOk "p" "m").2.stats.misses
        = (cache_get svcClearW envAllOk "p" "m").2.stats.total_requests) :=
  c2_lookup_increments svcClearW envAllOk "p" "m" rfl

/-- A concrete enabled service configured without exact-match-first and
without semantic caching. -/
def svcNoExactFirst : CacheService :=
  { enabled := true, redis_connected := true, semantic_enabled := false,
    similarity_threshold := 0.95, exact_match_first := false,
    stats := { exact_hits := 0, semantic_hits := 0, misses := 0,
               total_requests := 0 },
    redis := emptyRedis }

/-- A concrete enabled service configured with exact-match-first (the
default configuration). -/
def svcExactFirst : CacheService :=
  { enabled := true, redis_connected := true, semantic_enabled := false,
    similarity_threshold := 0.95, exact_match_first := true,
    stats := { exact_hits := 0, semantic_hits := 0, misses := 0,
               total_requests := 0 },
    redis := emptyRedis }

/-- A concrete response payload. -/
def respW : CachedResponse :=
  { content := "hello", usage := { input_tokens := 3, output_tokens := 5 },
    timestamp := "" }

/-- Claim C1, counterexample: on an enabled cache configured with
`CACHE_EXACT_MATCH_FIRST = False` (a recognised configuration option), a
store followed immediately by a lookup with no errors returns nothing at all
— `get` never consults the exact entry — so the round trip does not return
an exact-tagged copy of the stored response. -/
theorem c1_counterexample :
    is_enabled svcNoExactFirst = true ∧ Env.allOk envAllOk ∧
    (cache_get (cache_set svcNoExactFirst envAllOk "p" "m" respW) envAllOk
      "p" "m").1 = none := by
  refine ⟨rfl, ⟨fun _ => rfl, fun _ => rfl, fun _ => rfl, rfl⟩, ?_⟩
  rfl

/-- Claim C1 (amended): on an enabled cache configured with exact-match-first
(the default), `store(prompt, model, response)` followed immediately by
`lookup(prompt, model)` with no intervening writes and no store errors
returns the stored response tagged `"exact"` with no similarity metadata. -/
theorem c1_round_trip_exact (svc : CacheService) (env : Env)
    (prompt model_id : String) (response : CachedResponse)
    (hen : is_enabled svc = true)
    (hfirst : svc.exact_match_first = true)
    (hok : Env.allOk env) :
    (cache_get (cache_set svc env prompt model_id response) env
      prompt model_id).1 =
      some { response := response, cache_type := "exact",
             similarity_score := none } := by
  obtain ⟨he, hc, hf, -⟩ := cache_set_preserves svc env prompt model_id response
  have henS : is_enabled (cache_set svc env prompt model_id response) = true := by
    unfold is_enabled at hen ⊢
    rw [he, hc]; exact hen
  have hex : (cache_set svc env prompt model_id response).redis.exact
      (generate_exact_cache_key prompt model_id) = some response :=
    cache_set_writes_exact svc env prompt model_id response hen hok.2.2.1
  unfold cache_get
  simp only [henS, Bool.not_true, Bool.false_eq_true, if_false]
  have hfS : (bumpTotal (cache_set svc env prompt model_id response)).exact_match_first
      = true := by
    simp [bumpTotal, hf, hfirst]
  simp only [hfS, if_true]
  have hhit : try_exact_match
      (bumpTotal (cache_set svc env prompt model_id response)) env
      prompt model_id =
      (some { response := response, cache_type := "exact",
              similarity_score := none },
       bumpExact (bumpTotal (cache_set svc env prompt model_id response))) := by
    unfold try_exact_match
    dsimp only
    rw [hok.1 (generate_exact_cache_key prompt model_id)]
    dsimp only [bumpTotal]
    rw [hex]
    rfl
  rw [hhit]

/-- Claim C1, witness: a concrete store-then-lookup round trip under the
default exact-first configuration returns the stored payload tagged exact. -/
theorem c1_witness :
    is_enabled svcExactFirst = true ∧
    svcExactFirst.exact_match_first = true ∧
    (cache_get (cache_set svcExactFirst envAllOk "p" "m" respW) envAllOk
      "p" "m").1 =
      some { response := respW, cache_type := "exact",
             similarity_score := none } :=
  ⟨rfl, rfl,
   c1_round_trip_exact svcExactFirst envAllOk "p" "m" respW rfl rfl
     ⟨fun _ => rfl, fun _ => rfl, fun _ => rfl, rfl⟩⟩

/-- Claim C3: `find_most_similar` returns a hit exactly when the candidate
list is non-empty and the maximal computed similarity score meets or exceeds
the threshold (so a score equal to the threshold is accepted and one below it
is rejected); the returned score is that maximum; and an empty candidate set
returns nothing. -/
theorem c3_find_best_match_spec (q : List ℝ) (vs : List (List ℝ)) (t : ℝ) :
    ((∃ p, find_most_similar q vs t = some p) ↔
      (vs ≠ [] ∧ ∃ m : ℝ,
        (batch_cosine_similarity q vs).maximum = (m : WithBot ℝ) ∧ t ≤ m)) ∧
    (∀ i s, find_most_similar q vs t = some (i, s) →
      (batch_cosine_similarity q vs).maximum = (s : WithBot ℝ) ∧ t ≤ s) ∧
    (vs = [] → find_most_similar q vs t = none) := by
  cases hsims : batch_cosine_similarity q vs with
  | nil =>
    have hf := find_none_of_batch_nil q vs t hsims
    refine ⟨?_, ?_, ?_⟩
    · constructor
      · rintro ⟨p, hp⟩
        rw [hf] at hp
        exact absurd hp (by simp)
      · rintro ⟨hvs, m, hm, htm⟩
        exact absurd hm (by simp)
    · intro i s hp
      rw [hf] at hp
      exact absurd hp (by simp)
    · intro _
      exact hf
  | cons x xs =>
    have hvs : vs ≠ [] := by
      intro h
      subst h
      rw [batch_nil_of_vs_nil] at hsims
      exact absurd hsims (by simp)
    obtain ⟨hlt, hmaxall, hmem⟩ := np_argmax_spec x xs
    have hmax : (x :: xs).maximum =
        ((x :: xs).getD (np_argmax (x :: xs)) 0 : WithBot ℝ) :=
      List.maximum_eq_coe_iff.mpr ⟨hmem, hmaxall⟩
    have hfind := find_eq_of_batch_cons q vs t x xs hsims
    by_cases ht : t ≤ (x :: xs).getD (np_argmax (x :: xs)) 0
    · rw [if_pos ht] at hfind
      refine ⟨?_, ?_, ?_⟩
      · constructor
        · intro _
          exact ⟨hvs, _, hmax, ht⟩
        · intro _
          exact ⟨_, hfind⟩
      · intro i s hp
        rw [hfind] at hp
        have h2 := Option.some.inj hp
        rw [Prod.ext_iff] at h2
        obtain ⟨-, hs⟩ := h2
        simp only at hs
        rw [← hs]
        exact ⟨hmax, ht⟩
      · intro h
        exact absurd h hvs
    · rw [if_neg ht] at hfind
      refine ⟨?_, ?_, ?_⟩
      · constructor
        · rintro ⟨p, hp⟩
          rw [hfind] at hp
          exact absurd hp (by simp)
        · rintro ⟨-, m, hm, htm⟩
          rw [hmax] at hm
          have hm2 : (x :: xs).getD (np_argmax (x :: xs)) 0 = m := by
            exact_mod_cast hm
          exact absurd (hm2 ▸ htm) ht
      · intro i s hp
        rw [hfind] at hp
        exact absurd hp (by simp)
      · intro h
        exact absurd h hvs

/-- Claim C3, witness: the spec's boundary scenario — against the unit query,
a candidate at similarity exactly `0.95` is accepted at threshold `0.95`,
while a candidate at similarity exactly `0.949999` is rejected. -/
theorem c3_witness :
    (∃ p, find_most_similar qW [cAccept] 0.95 = some p) ∧
    find_most_similar qW [cReject] 0.95 = none := by
  constructor
  · refine ((c3_find_best_match_spec qW [cAccept] 0.95).1).mpr ?_
    refine ⟨by simp, 19 / 20, ?_, by norm_num⟩
    rw [batch_qW_accept, maximum_single]
  · have hnot : ¬∃ p, find_most_similar qW [cReject] 0.95 = some p := by
      rw [(c3_find_best_match_spec qW [cReject] 0.95).1]
      rintro ⟨-, m, hm, htm⟩
      rw [batch_qW_reject, maximum_single] at hm
      have hm2 : (949999 / 1000000 : ℝ) = m := by exact_mod_cast hm
      rw [← hm2] at htm
      norm_num at htm
    cases hfind : find_most_similar qW [cReject] 0.95 with
    | none => rfl
    | some p => exact absurd ⟨p, hfind⟩ hnot

/-- Claim C4, counterexample: two vectors of different lengths where one is
empty do NOT raise — the falsy-input guard returns `0.0` before the dimension
check, so `cosine_similarity [] [1]` is `ok 0` although the lengths differ. -/
theorem c4_counterexample :
    cosine_similarity [] [(1 : ℝ)] = .ok 0 ∧
    ([] : List ℝ).length ≠ [(1 : ℝ)].length := by
  constructor
  · unfold cosine_similarity
    rw [if_pos (Or.inl rfl)]
  · simp

/-- Claim C4 (amended): for every pair of NON-EMPTY vectors of different
lengths, `cosine_similarity` signals a dimension mismatch; and for every pair
of equal-length vectors in which either vector is all-zero it returns `0.0`
by convention rather than erroring. -/
theorem c4_dimension_mismatch :
    (∀ a b : List ℝ, a ≠ [] → b ≠ [] → a.length ≠ b.length →
      cosine_similarity a b = .error ()) ∧
    (∀ a b : List ℝ, a.length = b.length →
      ((∀ x ∈ a, x = 0) ∨ (∀ x ∈ b, x = 0)) →
      cosine_similarity a b = .ok 0) := by
  constructor
  · intro a b ha hb hlen
    unfold cosine_similarity
    rw [if_neg (by simp [ha, hb]), if_pos hlen]
  · intro a b hlen hzero
    unfold cosine_similarity
    by_cases hempty : a = [] ∨ b = []
    · rw [if_pos hempty]
    · rw [if_neg hempty, if_neg (by simp [hlen])]
      rw [if_pos ?_]
      rcases hzero with hz | hz
      · exact Or.inl (vnorm_eq_zero_of_all_zero hz)
      · exact Or.inr (vnorm_eq_zero_of_all_zero hz)

/-- Claim C4, witness: a concrete mismatched non-empty pair errors and a
concrete equal-length pair with an all-zero vector returns `0.0`. -/
theorem c4_witness :
    cosine_similarity [(1 : ℝ), 2] [(3 : ℝ), 4, 5] = .error () ∧
    cosine_similarity [(0 : ℝ), 0] [(1 : ℝ), 2] = .ok 0 := by
  constructor
  · exact c4_dimension_mismatch.1 _ _ (by simp) (by simp) (by simp)
  · exact c4_dimension_mismatch.2 [(0 : ℝ), 0] [(1 : ℝ), 2] (by simp)
      (Or.inl (by simp))

/-- Claim C9, counterexample: a dimension-mismatched candidate is NOT
excluded from the candidate set — it is scored `0.0` — and at the
non-default threshold `0.0` (the configuration surface allows any float in
`[0, 1]`) `find_most_similar` returns that mismatched candidate as the best
match. -/
theorem c9_counterexample :
    find_most_similar [(1 : ℝ)] [[1, 2]] 0 = some (0, 0) ∧
    (([[1, 2]] : List (List ℝ)).getD 0 []).length ≠ ([(1 : ℝ)]).length := by
  constructor
  · have hfind := find_eq_of_batch_cons [(1 : ℝ)] [[1, 2]] 0 0 []
      batch_mismatch_only
    have ha : np_argmax [(0 : ℝ)] = 0 := rfl
    have hg : ([(0 : ℝ)]).getD 0 0 = 0 := rfl
    rw [hfind, ha, hg, if_pos le_rfl]
  · simp

/-- Claim C9 (amended): a dimension-mismatched (or empty) candidate is
assigned similarity `0.0` rather than excluded, so whenever the similarity
threshold is positive (as the default `0.95` is) it can never be returned as
the best match; and its presence is not fatal — with a non-empty query every
candidate is still scored, the score list having one entry per candidate. -/
theorem c9_dimension_mismatch_excluded (q : List ℝ) (vs : List (List ℝ))
    (t : ℝ) (ht : 0 < t) :
    (∀ i s, find_most_similar q vs t = some (i, s) →
      vs.getD i [] ≠ [] ∧ (vs.getD i []).length = q.length) ∧
    (q ≠ [] → vs ≠ [] →
      (batch_cosine_similarity q vs).length = vs.length) := by
  constructor
  · intro i s hp
    cases hsims : batch_cosine_similarity q vs with
    | nil =>
      rw [find_none_of_batch_nil q vs t hsims] at hp
      exact absurd hp (by simp)
    | cons x xs =>
      have hfind := find_eq_of_batch_cons q vs t x xs hsims
      by_cases hth : t ≤ (x :: xs).getD (np_argmax (x :: xs)) 0
      · rw [if_pos hth] at hfind
        rw [hfind] at hp
        have h2 := Option.some.inj hp
        rw [Prod.ext_iff] at h2
        obtain ⟨hi, hs⟩ := h2
        simp only at hi hs
        by_contra hbad
        rw [not_and_or] at hbad
        have hbad2 : vs.getD i [] = [] ∨ (vs.getD i []).length ≠ q.length := by
          rcases hbad with h | h
          · exact Or.inl (not_not.mp h)
          · exact Or.inr h
        have hz := batch_getD_of_mismatch q vs i hbad2
        rw [hsims, ← hi] at hz
        rw [hz] at hth
        exact absurd hth (not_le.mpr ht)
      · rw [if_neg hth] at hfind
        rw [hfind] at hp
        exact absurd hp (by simp)
  · intro hq hvs
    unfold batch_cosine_similarity
    rw [if_neg (by simp [hq, hvs])]
    by_cases h2 : vnorm q = 0
    · rw [if_pos h2]
      simp
    · rw [if_neg h2]
      simp

/-- Claim C9, witness: at the default threshold `0.95` the theorem applies to
a concrete candidate set containing one mismatched and one matching
candidate. -/
theorem c9_witness :
    (0 : ℝ) < 0.95 ∧
    ((∀ i s, find_most_similar [(1 : ℝ)] [[1, 2], [1]] 0.95 = some (i, s) →
        ([[1, 2], [1]] : List (List ℝ)).getD i [] ≠ [] ∧
        (([[1, 2], [1]] : List (List ℝ)).getD i []).length
          = ([(1 : ℝ)]).length) ∧
     (([(1 : ℝ)] : List ℝ) ≠ [] → ([[1, 2], [1]] : List (List ℝ)) ≠ [] →
       (batch_cosine_similarity [(1 : ℝ)] [[1, 2], [1]]).length
         = ([[1, 2], [1]] : List (List ℝ)).length)) :=
  ⟨by norm_num,
   c9_dimension_mismatch_excluded [(1 : ℝ)] [[1, 2], [1]] 0.95 (by norm_num)⟩

/-- Claim C5: for every model with a pricing row (after the regional
multiplier) and all token counts, `calculate_cost` returns
`input_cost = round6(input_tokens/1000 * input_per_1k)`, symmetric for
output, and `total_cost = round6` of the unrounded sum, without the
fallback warning. -/
theorem c5_calculate_cost_formula (model_id region : String)
    (input_tokens output_tokens : ℕ) (p : ModelPricing)
    (hp : get_model_pricing model_id region = some p) :
    calculate_cost model_id input_tokens output_tokens region =
      some ({ input_cost := round6 (((input_tokens : ℚ) / 1000) * p.input_per_1k),
              output_cost := round6 (((output_tokens : ℚ) / 1000) * p.output_per_1k),
              total_cost := round6 (((input_tokens : ℚ) / 1000) * p.input_per_1k
                + ((output_tokens : ℚ) / 1000) * p.output_per_1k),
              model_id := model_id, input_tokens := input_tokens,
              output_tokens := output_tokens, region := region }, false) := by
  simp [calculate_cost, hp]

/-- Claim C5, witness: the spec scenario — Titan Text Lite at 1000/1000
tokens in `us-east-1` yields costs `0.00015`, `0.0002`, `0.00035`. -/
theorem c5_witness_titan :
    calculate_cost "amazon.titan-text-lite-v1" 1000 1000 "us-east-1" =
      some ({ input_cost := 0.00015, output_cost := 0.0002,
              total_cost := 0.00035,
              model_id := "amazon.titan-text-lite-v1", input_tokens := 1000,
              output_tokens := 1000, region := "us-east-1" }, false) := by
  have hp : get_model_pricing "amazon.titan-text-lite-v1" "us-east-1" =
      some { model_id := "amazon.titan-text-lite-v1",
             input_per_1k := 0.00015 * 1.0, output_per_1k := 0.0002 * 1.0,
             region := "us-east-1", effective_date := "2025-10-01" } := rfl
  rw [c5_calculate_cost_formula "amazon.titan-text-lite-v1" "us-east-1"
    1000 1000 _ hp]
  norm_num [round6, rint_half_even]

/-- Claim C6, counterexample: the key hashes the bare concatenation
`f"{model_id}:{prompt}"`, so the distinct pairs `(model="a", prompt="b:c")`
and `(model="a:b", prompt="c")` produce the same content string and hence the
same exact-match cache key — distinct inputs CAN collide. -/
theorem c6_counterexample :
    generate_exact_cache_key "b:c" "a" = generate_exact_cache_key "c" "a:b" ∧
    ¬("b:c" = "c" ∧ "a" = "a:b") := by
  constructor
  · unfold generate_exact_cache_key
    rw [show "a" ++ ":" ++ "b:c" = "a:b" ++ ":" ++ "c" from rfl]
  · decide

/-- Claim C6 (amended): key derivation is deterministic — equal
(model, prompt) pairs always map to the same exact-match key — but distinct
pairs need not map to distinct keys: any two pairs whose `model:prompt`
concatenations coincide share a key. -/
theorem c6_exact_key_determinism (p1 m1 p2 m2 : String) :
    (p1 = p2 → m1 = m2 →
      generate_exact_cache_key p1 m1 = generate_exact_cache_key p2 m2) ∧
    (m1 ++ ":" ++ p1 = m2 ++ ":" ++ p2 →
      generate_exact_cache_key p1 m1 = generate_exact_cache_key p2 m2) := by
  constructor
  · rintro rfl rfl; rfl
  · intro h
    unfold generate_exact_cache_key
    rw [h]

/-- Claim C6, witness: determinism at a concrete pair. -/
theorem c6_witness :
    generate_exact_cache_key "what is 2+2" "anthropic.claude-3-5-haiku-20241022-v1:0" =
    generate_exact_cache_key "what is 2+2" "anthropic.claude-3-5-haiku-20241022-v1:0" :=
  (c6_exact_key_determinism "what is 2+2"
    "anthropic.claude-3-5-haiku-20241022-v1:0" "what is 2+2"
    "anthropic.claude-3-5-haiku-20241022-v1:0").1 rfl rfl

/-- Claim C7: for every empty or whitespace-only input text,
`generate_embedding` returns the zero vector of the configured dimension and
does not invoke the provider. -/
theorem c7_empty_text_zero_vector (dimension : ℕ)
    (provider : String → Option (List ℝ)) (text : String)
    (h : text.toList.all is_python_space = true) :
    generate_embedding dimension provider text =
      (some (List.replicate dimension 0), false) := by
  unfold generate_embedding
  rw [if_pos (python_strip_of_all_space h)]

/-- Claim C7, witness: the empty string and a three-space string, at the
configured dimension 1536, with a provider that would fail if invoked. -/
theorem c7_witness :
    generate_embedding 1536 (fun _ => none) "" =
      (some (List.replicate 1536 0), false) ∧
    generate_embedding 1536 (fun _ => none) "   " =
      (some (List.replicate 1536 0), false) :=
  ⟨c7_empty_text_zero_vector 1536 (fun _ => none) "" (by decide),
   c7_empty_text_zero_vector 1536 (fun _ => none) "   " (by decide)⟩

/-- Claim C8: for every model absent from the pricing table and all token
counts, `calculate_cost` does not fail: it substitutes the fallback (Claude
3.5 Sonnet) pricing, flags the logged warning, and returns the breakdown
computed from that fallback pricing. -/
theorem c8_pricing_fallback (model_id region : String)
    (input_tokens output_tokens : ℕ)
    (h : get_model_pricing model_id region = none) :
    ∃ p, get_model_pricing fallback_model_id region = some p ∧
      calculate_cost model_id input_tokens output_tokens region =
        some ({ input_cost := round6 (((input_tokens : ℚ) / 1000) * p.input_per_1k),
                output_cost := round6 (((output_tokens : ℚ) / 1000) * p.output_per_1k),
                total_cost := round6 (((input_tokens : ℚ) / 1000) * p.input_per_1k
                  + ((output_tokens : ℚ) / 1000) * p.output_per_1k),
                model_id := model_id, input_tokens := input_tokens,
                output_tokens := output_tokens, region := region }, true) := by
  obtain ⟨p, hp⟩ : ∃ p, get_model_pricing fallback_model_id region = some p := by
    unfold get_model_pricing
    rw [show BEDROCK_PRICING.lookup fallback_model_id =
      some { model_id := "anthropic.claude-3-5-sonnet-20241022-v2:0",
             input_per_1k := 0.003, output_per_1k := 0.015,
             region := "us-east-1", effective_date := "2025-10-01" } from rfl]
    exact ⟨_, rfl⟩
  exact ⟨p, hp, by simp [calculate_cost, h, hp]⟩

/-- Claim C8, witness: a model id not in the table still yields a breakdown,
with the warning flag set. -/
theorem c8_witness :
    get_model_pricing "unknown-model" "us-east-1" = none ∧
    ∃ p, get_model_pricing fallback_model_id "us-east-1" = some p ∧
      calculate_cost "unknown-model" 10 20 "us-east-1" =
        some ({ input_cost := round6 (((10 : ℚ) / 1000) * p.input_per_1k),
                output_cost := round6 (((20 : ℚ) / 1000) * p.output_per_1k),
                total_cost := round6 (((10 : ℚ) / 1000) * p.input_per_1k
                  + ((20 : ℚ) / 1000) * p.output_per_1k),
                model_id := "unknown-model", input_tokens := 10,
                output_tokens := 20, region := "us-east-1" }, true) :=
  ⟨by decide, c8_pricing_fallback "unknown-model" "us-east-1" 10 20 (by decide)⟩

/-- Claim C10: on an enabled cache, a failed store flush leaves `clear` to
return with every statistics counter (indeed the whole state) unchanged,
while a successful flush resets all four counters to zero. -/
theorem c10_clear_stats (svc : CacheService) (env : Env)
    (hen : is_enabled svc = true) :
    (env.flushOk = false → cache_clear svc env = svc) ∧
    (env.flushOk = true → (cache_clear svc env).stats =
      { exact_hits := 0, semantic_hits := 0, misses := 0,
        total_requests := 0 }) := by
  constructor
  · intro hf
    simp [cache_clear, hen, hf]
  · intro hf
    simp [cache_clear, hen, hf]

/-- Claim C10, witness: with counters `(1, 2, 3, 6)`, a failed flush changes
nothing and a successful flush zeroes all four counters. -/
theorem c10_witness :
    cache_clear svcClearW envFlushFail = svcClearW ∧
    (cache_clear svcClearW envAllOk).stats =
      { exact_hits := 0, semantic_hits := 0, misses := 0,
        total_requests := 0 } :=
  ⟨(c10_clear_stats svcClearW envFlushFail rfl).1 rfl,
   (c10_clear_stats svcClearW envAllOk rfl).2 rfl⟩

end FluxAI
